import Mathlib

/-!
# Verification of the bitcoind async client against its specification

Shallow embedding of the resilient call dispatcher (`src/client.rs`) and of
the domain codec layer (`src/types.rs`) of the bitcoind-async-client
repository, together with theorems settling the spec claims about them.

Machine integers are embedded as `Nat`/`Int` with explicit `% 2 ^ 64`
(resp. signed 64-bit bounds) where wrap-around or range checks matter.
Wire floating-point numbers are embedded as rationals: the decimal value a
JSON number denotes.  Rust panics (`expect` / `unwrap` on malformed input)
are a distinguished outcome, kept apart from returned `serde` errors.
-/

namespace BitcoindClient

/-! ## Error taxonomy and envelope

`src/lib.rs` declares `pub mod error`, but `error.rs` itself is not under
`src/`; only its uses in `src/client.rs` and the spec describe it. -/

/-- Modelled from the spec: the closed error taxonomy of the missing
`error.rs` (spec sections 4.3 and 7).  Variant names and payloads follow
their construction sites in `src/client.rs`: `Param(String)`,
`Body(String)`, `Status(u16, String)`, `MalformedResponse(String)`,
`Connection(String)`, `Timeout`, `Request(String)`, `ReqBuilder(String)`,
`HttpRedirect(String)`, `Server(i32, String)`, `Parse(String)`,
`MaxRetriesExceeded(u8)`, `Xpriv`, `Other(String)`. -/
inductive ClientError where
  | Param (msg : String)
  | Body (msg : String)
  | Status (code : Nat) (reason : String)
  | MalformedResponse (msg : String)
  | Connection (msg : String)
  | Timeout
  | Request (msg : String)
  | ReqBuilder (msg : String)
  | HttpRedirect (msg : String)
  | Server (code : Int) (message : String)
  | Parse (msg : String)
  | MaxRetriesExceeded (limit : Nat)
  | Xpriv
  | Other (msg : String)
deriving DecidableEq, Repr

/-- Modelled from the spec: the structured JSON-RPC server error of the
missing `error.rs` (numeric code + message), as used by the response
envelope `Response` in `src/client.rs` (`err.code`, `err.message`). -/
structure BitcoinRpcError where
  code : Int
  message : String
deriving DecidableEq, Repr

/-- The JSON-RPC response envelope, from `struct Response<R>` in
`src/client.rs`: optional typed result, optional structured error, and the
echoed numeric id. -/
structure Response (R : Type) where
  result : Option R
  error : Option BitcoinRpcError
  id : Nat
deriving DecidableEq, Repr

/-! ## Transport outcomes

`Client::call` distinguishes a transport-level failure of `send()` from a
received HTTP response.  A received response carries its status code, its
canonical reason phrase, and a body; reading the body as text and parsing
it as the envelope can each fail, and both failures are surfaced by the
code as `ClientError::Parse`, so the embedding folds the two stages into a
single `Except` carried by the outcome. -/

/-- The failure kind of a `reqwest` transport error, as discriminated by
the ordered checks in `Client::call`: `is_body`, `is_status`, `is_decode`,
`is_connect`, `is_timeout`, `is_request`, `is_builder`, `is_redirect`,
with a final catch-all.  Each transport error has exactly one kind. -/
inductive TransportErrorKind where
  | body
  | statusErr (code : Option Nat)
  | decode
  | connect
  | timeout
  | request
  | builder
  | redirect
  | unknown
deriving DecidableEq, Repr

/-- The kinds `Client::call` retries: `is_decode`, `is_connect`,
`is_timeout`, `is_request`.  All other kinds return immediately. -/
def TransportErrorKind.isRetryable : TransportErrorKind → Bool
  | .decode => true
  | .connect => true
  | .timeout => true
  | .request => true
  | _ => false

/-- What one attempt of the dispatcher observes from the transport:
either an HTTP response (status code, canonical reason phrase, and the
parsed-envelope outcome of reading the body) or a transport failure. -/
inductive AttemptResult (R : Type) where
  | httpOk (status : Nat) (reason : String) (body : Except String (Response R))
  | transportErr (kind : TransportErrorKind) (msg : String)

/-- Whether an attempt outcome is a transport failure of a retryable kind. -/
def AttemptResult.isRetryable : AttemptResult R → Bool
  | .httpOk _ _ _ => false
  | .transportErr kind _ => kind.isRetryable

/-! ## The resilient call dispatcher -/

/-- The retry policy knobs of `Client` (`max_retries : u8`,
`retry_interval : u64` milliseconds). -/
structure ClientCfg where
  max_retries : Nat
  retry_interval : Nat
deriving DecidableEq, Repr

/-- What one execution of `Client::call` produced: the returned result,
the number of attempts made (HTTP requests issued), and the list of sleep
durations (in ms) performed between attempts, in order. -/
structure CallOutcome (R : Type) where
  result : Except ClientError R
  attempts : Nat
  sleeps : List Nat
deriving Repr

/-- The body of one iteration of the retry loop of `Client::call`
(`src/client.rs` lines 182-279) up to the retry bookkeeping: `some e`
means the iteration returns `e` immediately; `none` means it falls
through to the retry counter.

Branches, in source order: a received response first has its HTTP status
checked (`error_for_status` errors exactly on statuses 400..=599, and the
code returns `ClientError::Status(code, canonical_reason)`); then the
body is read and parsed (failure of either is `ClientError::Parse`); then
a populated envelope `error` is returned as `ClientError::Server`; then a
missing `result` is `ClientError::Other "Empty data received"`; otherwise
the decoded result is returned.  A transport failure is classified by
kind, in source order: body, status, builder, redirect and unknown errors
return immediately; decode, connect, timeout and request errors only log
and fall through to the retry counter. -/
def attemptStep (r : AttemptResult R) : Option (Except ClientError R) :=
  match r with
  | .httpOk status reason body =>
    if 400 ≤ status ∧ status ≤ 599 then
      some (.error (.Status status reason))
    else
      match body with
      | .error e => some (.error (.Parse e))
      | .ok data =>
        match data.error with
        | some err => some (.error (.Server err.code err.message))
        | none =>
          match data.result with
          | some r => some (.ok r)
          | none => some (.error (.Other "Empty data received"))
  | .transportErr kind msg =>
    match kind with
    | .body => some (.error (.Body msg))
    | .statusErr (some code) => some (.error (.Status code msg))
    | .statusErr none => some (.error (.Other msg))
    | .builder => some (.error (.ReqBuilder msg))
    | .redirect => some (.error (.HttpRedirect msg))
    | .unknown => some (.error (.Other "Unknown error"))
    | .decode | .connect | .timeout | .request => none

/-- The retry loop of `Client::call`.  `attempt` is the loop iteration
index (the value of `retries` at the top of the iteration); `rem` is the
number of retries still allowed, i.e. `max_retries - retries - 1` in
saturating `Nat` subtraction, so that the source guard
`retries + 1 >= max_retries` is exactly `rem = 0`.  Outcomes of
successive attempts are read from `outcomes`.  An iteration whose body
returns is one attempt with no sleep; an iteration that falls through to
the retry counter either returns `MaxRetriesExceeded(max_retries)` when
the budget is exhausted, or sleeps `retry_interval` ms and loops with a
fresh attempt. -/
def callGo (cfg : ClientCfg) (outcomes : Nat → AttemptResult R) :
    Nat → Nat → CallOutcome R
  | attempt, 0 =>
    match attemptStep (outcomes attempt) with
    | some e => ⟨e, 1, []⟩
    | none => ⟨.error (.MaxRetriesExceeded cfg.max_retries), 1, []⟩
  | attempt, rem + 1 =>
    match attemptStep (outcomes attempt) with
    | some e => ⟨e, 1, []⟩
    | none =>
      let rest := callGo cfg outcomes (attempt + 1) rem
      ⟨rest.result, rest.attempts + 1, cfg.retry_interval :: rest.sleeps⟩

/-- `Client::call`: run the retry loop from `retries = 0`, so with
`max_retries - 1` retries still allowed. -/
def call (cfg : ClientCfg) (outcomes : Nat → AttemptResult R) : CallOutcome R :=
  callGo cfg outcomes 0 (cfg.max_retries - 1)

/-! ## Request ids

`Client::new` sets `id = Arc::new(AtomicUsize::new(0))`; clones of the
client share this `Arc`, so every allocation anywhere on the instance is a
`fetch_add(1, AcqRel)` on the one counter.  The embedding is the resulting
sequence of allocations in the order the atomic operations take effect:
the k-th `next_id` returns the old counter value and stores old + 1,
wrapping at the 64-bit `usize` boundary. -/

/-- The wrap-around modulus of a 64-bit `usize`. -/
def USIZE_MOD : Nat := 2 ^ 64

/-- `Client::next_id`: `fetch_add(1)` on the shared counter — returns the
old value, stores the incremented value (wrapping). -/
def next_id (counter : Nat) : Nat × Nat :=
  (counter, (counter + 1) % USIZE_MOD)

/-- Counter value after `k` allocations on a freshly constructed client. -/
def counterAfter : Nat → Nat
  | 0 => 0
  | k + 1 => (next_id (counterAfter k)).2

/-- The id returned by the k-th (0-based) `next_id` allocation. -/
def idIssued (k : Nat) : Nat := (next_id (counterAfter k)).1

/-! ## The broadcast facade

`<Client as Broadcaster>::send_raw_transaction` (`src/client.rs` lines
426-444): dispatch `sendrawtransaction`, and post-process the outcome. -/

/-- Modelled from the spec: a consensus transaction is an external
bitcoin-library value; the only operation this repository applies to it
here is `compute_txid`, the locally computed transaction identifier, so
the transaction is abstracted to that identifier (32 bytes). -/
structure Transaction where
  txid : List Nat
deriving DecidableEq, Repr

/-- The locally computed transaction identifier (`Transaction::compute_txid`
of the external bitcoin library). -/
def Transaction.compute_txid (tx : Transaction) : List Nat := tx.txid

/-- Modelled from the spec: the `Display` rendering of `ClientError` lives
in the missing `error.rs`; `send_raw_transaction` only uses it to wrap a
non-server error as `Other(e.to_string())`, so any rendering is adequate. -/
def ClientError.render : ClientError → String
  | .Param m => "param: " ++ m
  | .Body m => "body: " ++ m
  | .Status _ r => "status: " ++ r
  | .MalformedResponse m => "malformed response: " ++ m
  | .Connection m => "connection: " ++ m
  | .Timeout => "timeout"
  | .Request m => "request: " ++ m
  | .ReqBuilder m => "builder: " ++ m
  | .HttpRedirect m => "redirect: " ++ m
  | .Server _ m => "server: " ++ m
  | .Parse m => "parse: " ++ m
  | .MaxRetriesExceeded _ => "max retries exceeded"
  | .Xpriv => "xpriv"
  | .Other m => m

/-- `send_raw_transaction`, from `src/client.rs` lines 426-444, as a
function of the dispatcher outcome for the `sendrawtransaction` call on
the serialized transaction: a success passes the server-decoded txid
through; a structured server error with code `-27` (transaction already
in chain) is converted to success carrying `tx.compute_txid()`; any other
structured server error is returned as-is; any other error is wrapped as
`Other(e.to_string())`. -/
def send_raw_transaction (tx : Transaction)
    (callResult : Except ClientError (List Nat)) :
    Except ClientError (List Nat) :=
  match callResult with
  | .ok txid => .ok txid
  | .error (.Server i s) =>
    if i = -27 then .ok tx.compute_txid else .error (.Server i s)
  | .error e => .error (.Other e.render)

/-! ## The domain codec layer (`src/types.rs`)

Each serde visitor in the source either returns a decoded value, returns
a `serde` decode error, or aborts the process through `expect`/`unwrap`
on malformed input.  The three outcomes are kept distinct. -/

/-- Outcome of a codec-layer decode: a value, a returned decode error
(`serde::de::Error`), or an unconditional process abort (a Rust panic
raised by `expect`/`unwrap`). -/
inductive VisitResult (α : Type) where
  | ok (a : α)
  | err (msg : String)
  | abort (msg : String)
deriving DecidableEq, Repr

/-- The satoshi scale: 1 BTC = 100,000,000 satoshi. -/
def satsPerBtc : ℚ := 100000000

/-- Modelled from the spec: `Amount::from_btc` of the external
rust-bitcoin library — scale the BTC value by 100,000,000; negative
values, values not representable as a whole number of satoshis, and
values beyond the unsigned 64-bit satoshi range are parse errors. -/
def amountFromBtc (v : ℚ) : Option Nat :=
  if 0 ≤ v ∧ (v * satsPerBtc).den = 1 ∧ (v * satsPerBtc).num < 2 ^ 64 then
    some (v * satsPerBtc).num.toNat
  else none

/-- Modelled from the spec: `SignedAmount::from_btc` of the external
rust-bitcoin library — scale the BTC value by 100,000,000, permitting
negative magnitudes; values not representable as a whole number of
satoshis or beyond the signed 64-bit satoshi range are parse errors. -/
def signedAmountFromBtc (v : ℚ) : Option Int :=
  if (v * satsPerBtc).den = 1 ∧ -(2 ^ 63) ≤ (v * satsPerBtc).num ∧
      (v * satsPerBtc).num < 2 ^ 63 then
    some (v * satsPerBtc).num
  else none

/-- `deserialize_bitcoin` (`src/types.rs` lines 688-710): the unsigned
monetary decoder.  Its `SatVisitor::visit_f64` runs
`Amount::from_btc(v).expect("Amount deserialization failed")`: a parse
failure (in particular any `v < 0`) aborts instead of returning a decode
error. -/
def deserialize_bitcoin (v : ℚ) : VisitResult Nat :=
  match amountFromBtc v with
  | some a => .ok a
  | none => .abort "Amount deserialization failed"

/-- `deserialize_signed_bitcoin` (`src/types.rs` lines 756-779): the
signed monetary decoder.  Its `SatVisitor::visit_f64` runs
`SignedAmount::from_btc(v).expect("Amount deserialization failed")`. -/
def deserialize_signed_bitcoin (v : ℚ) : VisitResult Int :=
  match signedAmountFromBtc v with
  | some a => .ok a
  | none => .abort "Amount deserialization failed"

/-! ### Hex decoding -/

/-- Value of one hexadecimal digit character. -/
def hexDigitVal (c : Char) : Option Nat :=
  if ('0' ≤ c ∧ c ≤ '9') then some (c.toNat - '0'.toNat)
  else if ('a' ≤ c ∧ c ≤ 'f') then some (c.toNat - 'a'.toNat + 10)
  else if ('A' ≤ c ∧ c ≤ 'F') then some (c.toNat - 'A'.toNat + 10)
  else none

/-- Decode a list of hex digit characters into bytes, two characters per
byte; fails on an odd-length list or a non-hex character. -/
def hexDecodeList : List Char → Option (List Nat)
  | [] => some []
  | [_] => none
  | c1 :: c2 :: rest =>
    match hexDigitVal c1, hexDigitVal c2, hexDecodeList rest with
    | some hi, some lo, some bs => some ((16 * hi + lo) :: bs)
    | _, _, _ => none

/-- Decode a hex string into bytes. -/
def hexDecode (s : String) : Option (List Nat) := hexDecodeList s.toList

/-- Modelled from the spec: `Txid` parsing of the external rust-bitcoin
library — a fixed-length (64 hex characters) string decoding to a
fixed-size 32-byte identifier, stored in reverse of display order. -/
def parseTxid (s : String) : Option (List Nat) :=
  match hexDecode s with
  | some bs => if bs.length = 32 then some bs.reverse else none
  | none => none

/-- `deserialize_txid` (`src/types.rs` lines 796-820): its
`TxidVisitor::visit_str` runs `v.parse::<Txid>().expect("invalid txid")`:
a malformed identifier aborts instead of returning a decode error. -/
def deserialize_txid (s : String) : VisitResult (List Nat) :=
  match parseTxid s with
  | some t => .ok t
  | none => .abort "invalid txid"

/-- Modelled from the spec: the canonical consensus deserialization of a
transaction (external bitcoin library), abstracted to its fail-closed
shape — the empty byte stream is malformed, and any other stream is kept
abstract as its raw consensus bytes.  No claim depends on which non-empty
byte streams the external library accepts. -/
def consensusDecodeTx (bs : List Nat) : Option (List Nat) :=
  match bs with
  | [] => none
  | _ => some bs

/-- `deserialize_tx` (`src/types.rs` lines 822-846): its
`TxVisitor::visit_str` runs
`consensus::encode::deserialize_hex::<Transaction>(v).expect(...)`:
malformed hex (or a malformed byte stream) aborts instead of returning a
decode error. -/
def deserialize_tx (s : String) : VisitResult (List Nat) :=
  match hexDecode s with
  | none => .abort "failed to deserialize tx hex"
  | some bs =>
    match consensusDecodeTx bs with
    | none => .abort "failed to deserialize tx hex"
    | some tx => .ok tx

/-! ### Base64 and PSBT decoding -/

/-- Value of one standard-alphabet base64 character. -/
def base64CharVal (c : Char) : Option Nat :=
  if 'A' ≤ c ∧ c ≤ 'Z' then some (c.toNat - 'A'.toNat)
  else if 'a' ≤ c ∧ c ≤ 'z' then some (c.toNat - 'a'.toNat + 26)
  else if '0' ≤ c ∧ c ≤ '9' then some (c.toNat - '0'.toNat + 52)
  else if c = '+' then some 62
  else if c = '/' then some 63
  else none

/-- Decode standard base64 with canonical padding (the rust `base64`
STANDARD engine): four characters per chunk, `=`-padding only in a final
chunk, non-canonical trailing bits rejected. -/
def base64DecodeChunks : List Char → Option (List Nat)
  | [] => some []
  | [a, b, '=', '='] =>
    match base64CharVal a, base64CharVal b with
    | some va, some vb =>
      if vb % 16 = 0 then some [va * 4 + vb / 16] else none
    | _, _ => none
  | [a, b, c, '='] =>
    match base64CharVal a, base64CharVal b, base64CharVal c with
    | some va, some vb, some vc =>
      if vc % 4 = 0 then
        some [va * 4 + vb / 16, (vb % 16) * 16 + vc / 4]
      else none
    | _, _, _ => none
  | a :: b :: c :: d :: rest =>
    match base64CharVal a, base64CharVal b, base64CharVal c,
        base64CharVal d, base64DecodeChunks rest with
    | some va, some vb, some vc, some vd, some bs =>
      some ((va * 4 + vb / 16) :: ((vb % 16) * 16 + vc / 4) ::
        ((vc % 4) * 64 + vd) :: bs)
    | _, _, _, _, _ => none
  | _ => none

/-- Decode a base64 string into bytes. -/
def base64Decode (s : String) : Option (List Nat) :=
  base64DecodeChunks s.toList

/-- The five magic bytes opening every serialized PSBT: `psbt` then 0xff. -/
def psbtMagic : List Nat := [0x70, 0x73, 0x62, 0x74, 0xff]

/-- Modelled from the spec: `Psbt` parsing of the external rust-bitcoin
library — base64-decode the string per the PSBT serialization, then
deserialize the bytes, failing closed unless the stream opens with the
PSBT magic; the payload past the magic is kept abstract as raw bytes.
In particular the empty string base64-decodes to the empty stream, which
has no magic and is a parse error. -/
def psbtFromStr (s : String) : Except String (List Nat) :=
  match base64Decode s with
  | none => .error "base64 decode failure"
  | some bs =>
    if bs.take 5 = psbtMagic then .ok (bs.drop 5)
    else .error "invalid magic"

/-- `deserialize_psbt` (`src/types.rs` lines 854-876): parse the base64
PSBT string, mapping a parse failure to an explicit decode error. -/
def deserialize_psbt (s : String) : Except String (List Nat) :=
  match psbtFromStr s with
  | .ok p => .ok p
  | .error e => .error ("failed to deserialize PSBT: " ++ e)

/-- `deserialize_option_psbt` (`src/types.rs` lines 884-896): a `null` or
missing field is `None`; a present string `s` is parsed with
`s.parse::<Psbt>()`, mapping a parse failure to an explicit decode
error. -/
def deserialize_option_psbt (o : Option String) :
    Except String (Option (List Nat)) :=
  match o with
  | none => .ok none
  | some s =>
    match psbtFromStr s with
    | .ok p => .ok (some p)
    | .error e => .error ("failed to deserialize PSBT: " ++ e)

/-! ### Transaction-output specifications -/

/-- A JSON value, as produced by the serializer. -/
inductive Json where
  | null : Json
  | bool (b : Bool) : Json
  | num (q : ℚ) : Json
  | str (s : String) : Json
  | arr (xs : List Json) : Json
  | obj (fields : List (String × Json)) : Json

/-- An `f64` value as held by a `CreateRawTransactionOutput` amount:
either a finite value, embedded as the decimal it denotes, or one of the
non-finite values (NaN, the two infinities), which have no JSON number
representation. -/
inductive F64 where
  | finite (q : ℚ)
  | nan
  | inf
  | negInf
deriving DecidableEq, Repr

/-- Modelled from the spec: `serde_json::Number::from_f64` (external
library) — a JSON number for a finite float, `None` for NaN and the
infinities. -/
def numberFromF64 : F64 → Option ℚ
  | .finite q => some q
  | .nan => none
  | .inf => none
  | .negInf => none

/-- `CreateRawTransactionOutput` (`src/types.rs` lines 286-299): either an
address paired with a BTC amount (an `f64`), or an opaque data payload. -/
inductive CreateRawTransactionOutput where
  | AddressAmount (address : String) (amount : F64)
  | Data (data : String)

/-- Insert into a JSON object map, replacing an existing binding of the
same key (`serde_json::Map::insert`). -/
def mapInsert (m : List (String × Json)) (k : String) (v : Json) :
    List (String × Json) :=
  match m with
  | [] => [(k, v)]
  | (k0, v0) :: rest =>
    if k0 = k then (k, v) :: rest else (k0, v0) :: mapInsert rest k v

/-- The manual `Serialize` impl for `CreateRawTransactionOutput`
(`src/types.rs` lines 301-322): each variant builds a fresh map and
inserts a single entry — the address keyed to
`Number::from_f64(*amount).unwrap()`, or the key `"data"` keyed to the
payload string — and serializes that map.  The `unwrap` aborts the
process when the amount is non-finite (NaN or infinite), since
`Number::from_f64` has no representation for it. -/
def CreateRawTransactionOutput.serializeJson :
    CreateRawTransactionOutput → VisitResult Json
  | .AddressAmount address amount =>
    match numberFromF64 amount with
    | some n => .ok (.obj (mapInsert [] address (.num n)))
    | none => .abort "called Option::unwrap on a None value"
  | .Data data =>
    .ok (.obj (mapInsert [] "data" (.str data)))

/-- The keys of a JSON object, in order. -/
def Json.objKeys : Json → List String
  | .obj fields => fields.map Prod.fst
  | _ => []

/-! ## Helper lemmas -/

/-- An attempt outcome of retryable kind is a transport error whose
transport kind is retryable. -/
theorem isRetryable_elim {r : AttemptResult R} (h : r.isRetryable = true) :
    ∃ kind msg, r = .transportErr kind msg ∧ kind.isRetryable = true := by
  cases r with
  | httpOk status reason body => simp [AttemptResult.isRetryable] at h
  | transportErr kind msg => exact ⟨kind, msg, rfl, h⟩

/-- An attempt outcome is retryable exactly when the iteration body falls
through to the retry counter. -/
theorem attemptStep_eq_none {r : AttemptResult R} (h : r.isRetryable = true) :
    attemptStep r = none := by
  obtain ⟨kind, msg, ho, hk⟩ := isRetryable_elim h
  subst ho
  cases kind with
  | body => simp [TransportErrorKind.isRetryable] at hk
  | statusErr c => simp [TransportErrorKind.isRetryable] at hk
  | builder => simp [TransportErrorKind.isRetryable] at hk
  | redirect => simp [TransportErrorKind.isRetryable] at hk
  | unknown => simp [TransportErrorKind.isRetryable] at hk
  | decode => rfl
  | connect => rfl
  | timeout => rfl
  | request => rfl

/-- An iteration whose body returns ends the loop: one attempt, no sleep,
whatever the remaining retry budget. -/
theorem callGo_done (cfg : ClientCfg) (outcomes : Nat → AttemptResult R)
    (attempt rem : Nat) (e : Except ClientError R)
    (h : attemptStep (outcomes attempt) = some e) :
    callGo cfg outcomes attempt rem = ⟨e, 1, []⟩ := by
  cases rem <;> (unfold callGo; rw [h])

/-- When every attempt fails with a retryable transport error, the loop
exhausts its remaining budget `rem`: it makes `rem + 1` attempts, sleeps
the configured interval `rem` times, and returns the max-retries error
carrying the configured limit. -/
theorem callGo_retryable (cfg : ClientCfg) (outcomes : Nat → AttemptResult R)
    (h : ∀ n, (outcomes n).isRetryable = true) :
    ∀ rem attempt, callGo cfg outcomes attempt rem =
      ⟨.error (.MaxRetriesExceeded cfg.max_retries), rem + 1,
        List.replicate rem cfg.retry_interval⟩ := by
  intro rem
  induction rem with
  | zero =>
    intro attempt
    unfold callGo
    rw [attemptStep_eq_none (h attempt)]
    rfl
  | succ rem ih =>
    intro attempt
    unfold callGo
    rw [attemptStep_eq_none (h attempt)]
    simp [ih (attempt + 1), List.replicate_succ]

/-- The counter after `k` allocations is `k` modulo the `usize` wrap. -/
theorem counterAfter_eq (k : Nat) : counterAfter k = k % USIZE_MOD := by
  have hM : USIZE_MOD = 18446744073709551616 := by norm_num [USIZE_MOD]
  induction k with
  | zero => simp [counterAfter]
  | succ k ih =>
    unfold counterAfter next_id
    simp only []
    rw [ih, hM]
    omega

/-! ## Claims -/

/-- C1, counterexample.  The claim asserts that with every attempt failing
on a retryable transport error (connection refused), exactly `max_retries`
delays of the configured interval elapse.  With `max_retries = 3` and
`retry_interval = 1000`, the dispatcher returns the max-retries error
after 3 attempts but only 2 sleeps of 1000 ms, not 3. -/
theorem claim_C1_counterexample :
    call ⟨3, 1000⟩
        (fun _ => AttemptResult.transportErr (R := Nat) .connect
          "connection refused") =
      ⟨.error (.MaxRetriesExceeded 3), 3, [1000, 1000]⟩ ∧
    ([1000, 1000] : List Nat) ≠ List.replicate 3 1000 :=
  ⟨rfl, by decide⟩

/-- C1, amended.  For every call whose every attempt fails with a
retryable transport error, the dispatcher returns the max-retries-exceeded
error carrying the configured limit after `max 1 max_retries` attempts,
and exactly `max_retries - 1` delays of the configured retry interval
elapse before it returns (not `max_retries` of them, as claimed). -/
theorem claim_C1 (cfg : ClientCfg) (outcomes : Nat → AttemptResult R)
    (h : ∀ n, (outcomes n).isRetryable = true) :
    call cfg outcomes =
      ⟨.error (.MaxRetriesExceeded cfg.max_retries), max 1 cfg.max_retries,
        List.replicate (cfg.max_retries - 1) cfg.retry_interval⟩ := by
  unfold call
  rw [callGo_retryable cfg outcomes h (cfg.max_retries - 1) 0]
  have hatt : cfg.max_retries - 1 + 1 = max 1 cfg.max_retries := by omega
  rw [hatt]

/-- C1, witness: the amended claim at `max_retries = 2`,
`retry_interval = 500`, all attempts refused. -/
theorem claim_C1_witness :
    call ⟨2, 500⟩
        (fun _ => AttemptResult.transportErr (R := Nat) .connect
          "connection refused") =
      ⟨.error (.MaxRetriesExceeded 2), 2, [500]⟩ :=
  claim_C1 ⟨2, 500⟩ _ (fun _ => rfl)

/-- C2, counterexample.  The claim asserts that every response with a
non-2xx HTTP status produces a terminal status error.  A 304 response
(non-2xx) whose body parses as an envelope carrying a result makes the
call return that result: `error_for_status` only treats 400..=599 as
status errors. -/
theorem claim_C2_counterexample :
    call ⟨3, 1000⟩
        (fun _ => AttemptResult.httpOk 304 "Not Modified"
          (.ok (⟨some 42, none, 7⟩ : Response Nat))) =
      ⟨.ok 42, 1, []⟩ ∧
    ¬(200 ≤ 304 ∧ 304 ≤ 299) :=
  ⟨rfl, by decide⟩

/-- C2, amended.  For every HTTP response whose status is in 400..=599
(for example 401), the call returns a terminal status error carrying the
numeric status code and reason, and the retry loop is never entered: a
single attempt and no delay. -/
theorem claim_C2 (cfg : ClientCfg) (outcomes : Nat → AttemptResult R)
    (status : Nat) (reason : String) (body : Except String (Response R))
    (ho : outcomes 0 = .httpOk status reason body)
    (h4 : 400 ≤ status) (h5 : status ≤ 599) :
    call cfg outcomes = ⟨.error (.Status status reason), 1, []⟩ := by
  unfold call
  refine callGo_done cfg outcomes 0 _ _ ?_
  rw [ho]
  simp only [attemptStep]
  rw [if_pos ⟨h4, h5⟩]

/-- C2, witness: the amended claim at status 401 Unauthorized. -/
theorem claim_C2_witness :
    call ⟨3, 1000⟩
        (fun _ => AttemptResult.httpOk 401 "Unauthorized"
          (.ok (⟨none, none, 0⟩ : Response Nat))) =
      ⟨.error (.Status 401 "Unauthorized"), 1, []⟩ :=
  claim_C2 ⟨3, 1000⟩ _ 401 "Unauthorized" _ rfl (by decide) (by decide)

/-- C3.  For every transaction broadcast via `send_raw_transaction`, a
structured server error with code -27 (transaction already in chain) is
returned as success carrying the locally computed transaction identifier
of the submitted transaction; any other structured server error code is
returned as that server error with its code and message. -/
theorem claim_C3 (tx : Transaction) (msg : String) :
    send_raw_transaction tx (.error (.Server (-27) msg)) =
      .ok tx.compute_txid ∧
    ∀ code msg2, code ≠ -27 →
      send_raw_transaction tx (.error (.Server code msg2)) =
        .error (.Server code msg2) := by
  constructor
  · rfl
  · intro code msg2 hc
    simp only [send_raw_transaction]
    rw [if_neg hc]

/-- C3, witness: a concrete transaction, the -27 carve-out and the -26
(mempool rejection) pass-through. -/
theorem claim_C3_witness :
    send_raw_transaction ⟨List.replicate 32 0⟩
        (.error (.Server (-27) "transaction already in block chain")) =
      .ok (Transaction.compute_txid ⟨List.replicate 32 0⟩) ∧
    send_raw_transaction ⟨List.replicate 32 0⟩
        (.error (.Server (-26) "dust")) =
      .error (.Server (-26) "dust") :=
  ⟨(claim_C3 ⟨List.replicate 32 0⟩ "transaction already in block chain").1,
    (claim_C3 ⟨List.replicate 32 0⟩ "transaction already in block chain").2
      (-26) "dust" (by decide)⟩

/-- C4.  For every well-parsed envelope in which both the result and the
error field are absent, the call returns the terminal empty-response
error (`Other "Empty data received"`), regardless of the echoed id value,
without entering the retry loop; the absent result is never defaulted. -/
theorem claim_C4 (R : Type) (cfg : ClientCfg) (reason : String) (id : Nat) :
    call cfg
        (fun _ => AttemptResult.httpOk 200 reason
          (.ok (⟨none, none, id⟩ : Response R))) =
      ⟨.error (.Other "Empty data received"), 1, []⟩ :=
  callGo_done _ _ 0 _ _ rfl

/-- C10.  For every parsed envelope in which both a structured error and
a result are populated, the call returns the server error carrying the
numeric code and message, and the populated result value is discarded:
the error field is inspected first. -/
theorem claim_C10 (R : Type) (cfg : ClientCfg) (reason : String) (r : R)
    (code : Int) (msg : String) (id : Nat) :
    call cfg
        (fun _ => AttemptResult.httpOk 200 reason
          (.ok (⟨some r, some ⟨code, msg⟩, id⟩ : Response R))) =
      ⟨.error (.Server code msg), 1, []⟩ :=
  callGo_done _ _ 0 _ _ rfl

/-- C5, counterexample.  The claim asserts that the unsigned
monetary-amount decoder rejects a negative wire float with a decode error
rather than a value or a crash.  At `v = -1/2` BTC the unsigned decoder
aborts the process (the `expect` on `Amount::from_btc` panics) instead of
returning a decode error; the signed decoder accepts it at the exact
satoshi scale. -/
theorem claim_C5_counterexample :
    deserialize_bitcoin (-(1 : ℚ) / 2) =
      .abort "Amount deserialization failed" ∧
    deserialize_signed_bitcoin (-(1 : ℚ) / 2) = .ok (-50000000) := by
  have hmul : (-(1 : ℚ) / 2) * satsPerBtc = -50000000 := by
    norm_num [satsPerBtc]
  constructor
  · unfold deserialize_bitcoin amountFromBtc
    rw [if_neg]
    rintro ⟨h0, -⟩
    norm_num at h0
  · unfold deserialize_signed_bitcoin signedAmountFromBtc
    rw [hmul, if_pos]
    · norm_num
    · refine ⟨by norm_num, by norm_num, by norm_num⟩

/-- C5, amended.  For every wire float `v` whose satoshi value
`v * 100000000` is a whole number in the signed 64-bit range: if `v < 0`
the unsigned decoder aborts (panics) rather than returning a value or a
decode error, while the signed decoder accepts `v` and produces the exact
satoshi value at scale 100,000,000; if `v ≥ 0` both decoders apply the
same scale and produce the same satoshi magnitude. -/
theorem claim_C5 (v : ℚ)
    (hden : (v * satsPerBtc).den = 1)
    (hlo : -(2 ^ 63) ≤ (v * satsPerBtc).num)
    (hhi : (v * satsPerBtc).num < 2 ^ 63) :
    (v < 0 →
      deserialize_bitcoin v = .abort "Amount deserialization failed" ∧
      deserialize_signed_bitcoin v = .ok (v * satsPerBtc).num) ∧
    (0 ≤ v →
      deserialize_bitcoin v = .ok (v * satsPerBtc).num.toNat ∧
      deserialize_signed_bitcoin v = .ok (v * satsPerBtc).num) := by
  constructor
  · intro hv
    constructor
    · unfold deserialize_bitcoin amountFromBtc
      rw [if_neg]
      rintro ⟨h0, -⟩
      exact absurd h0 (not_le.mpr hv)
    · unfold deserialize_signed_bitcoin signedAmountFromBtc
      rw [if_pos ⟨hden, hlo, hhi⟩]
  · intro hv
    constructor
    · unfold deserialize_bitcoin amountFromBtc
      rw [if_pos ⟨hv, hden, by omega⟩]
    · unfold deserialize_signed_bitcoin signedAmountFromBtc
      rw [if_pos ⟨hden, hlo, hhi⟩]

/-- C5, witness: the amended claim at `v = -3/4` BTC (negative branch)
and, through the same hypotheses at `v = 3/4`, the nonnegative branch. -/
theorem claim_C5_witness :
    (deserialize_bitcoin (-(3 : ℚ) / 4) =
        .abort "Amount deserialization failed" ∧
      deserialize_signed_bitcoin (-(3 : ℚ) / 4) = .ok (-75000000)) ∧
    (deserialize_bitcoin ((3 : ℚ) / 4) = .ok 75000000 ∧
      deserialize_signed_bitcoin ((3 : ℚ) / 4) = .ok 75000000) := by
  have hneg : (-(3 : ℚ) / 4) * satsPerBtc = -75000000 := by
    norm_num [satsPerBtc]
  have hpos : ((3 : ℚ) / 4) * satsPerBtc = 75000000 := by
    norm_num [satsPerBtc]
  constructor
  · have h := (claim_C5 (-(3 : ℚ) / 4)
      (by rw [hneg]; norm_num) (by rw [hneg]; norm_num)
      (by rw [hneg]; norm_num)).1 (by norm_num)
    rw [hneg] at h
    simpa using h
  · have h := (claim_C5 ((3 : ℚ) / 4)
      (by rw [hpos]; norm_num) (by rw [hpos]; norm_num)
      (by rw [hpos]; norm_num)).2 (by norm_num)
    rw [hpos] at h
    simpa using h

/-- C6, counterexample.  The claim asserts the strict txid / transaction
decoders are total, returning a terminal decode error on malformed hex
rather than crashing.  On the malformed hex string `"zz"` both decoders
abort the process (the `expect` panics) instead of returning a decode
error. -/
theorem claim_C6_counterexample :
    deserialize_txid "zz" = .abort "invalid txid" ∧
    deserialize_tx "zz" = .abort "failed to deserialize tx hex" :=
  ⟨rfl, rfl⟩

/-- C6, amended.  For every malformed hex string supplied where a
transaction identifier or a consensus-serialized transaction is expected,
the strict decoder aborts the process (panics) rather than returning a
terminal decode error value; it never yields a value on such input. -/
theorem claim_C6 (s : String) (h : hexDecode s = none) :
    deserialize_txid s = .abort "invalid txid" ∧
    deserialize_tx s = .abort "failed to deserialize tx hex" := by
  constructor
  · unfold deserialize_txid parseTxid
    rw [h]
  · unfold deserialize_tx
    rw [h]

/-- C6, witness: the amended claim at the odd-length hex string `"0"`. -/
theorem claim_C6_witness :
    deserialize_txid "0" = .abort "invalid txid" ∧
    deserialize_tx "0" = .abort "failed to deserialize tx hex" :=
  claim_C6 "0" rfl

/-- C7, counterexample.  The claim asserts that serializing every
address+amount output specification produces a JSON object.  With a NaN
amount the serializer aborts the process instead: `Number::from_f64`
returns `None` for a non-finite float and the source `unwrap`s it
(`src/types.rs` line 311), so no JSON object is produced at all. -/
theorem claim_C7_counterexample :
    (CreateRawTransactionOutput.AddressAmount "bcrt1qaddress"
        F64.nan).serializeJson =
      .abort "called Option::unwrap on a None value" := rfl

/-- C7, amended.  For every transaction-output specification whose
amount is a finite float: serializing the address+amount variant
produces a JSON object with exactly one key, equal to the address
string, whose value is the amount; serializing the data-payload variant
always produces a JSON object with the single key "data" whose value is
the payload string.  A non-finite (NaN or infinite) amount makes the
address+amount serializer abort (the `unwrap` on `Number::from_f64`
panics) instead of producing an object. -/
theorem claim_C7 (address : String) (amount : ℚ) (data : String) :
    (CreateRawTransactionOutput.AddressAmount address
        (.finite amount)).serializeJson =
      .ok (.obj [(address, .num amount)]) ∧
    (Json.obj [(address, .num amount)]).objKeys = [address] ∧
    (CreateRawTransactionOutput.Data data).serializeJson =
      .ok (.obj [("data", .str data)]) ∧
    (Json.obj [("data", .str data)]).objKeys = ["data"] ∧
    (CreateRawTransactionOutput.AddressAmount address
        F64.nan).serializeJson =
      .abort "called Option::unwrap on a None value" ∧
    (CreateRawTransactionOutput.AddressAmount address
        F64.inf).serializeJson =
      .abort "called Option::unwrap on a None value" ∧
    (CreateRawTransactionOutput.AddressAmount address
        F64.negInf).serializeJson =
      .abort "called Option::unwrap on a None value" :=
  ⟨rfl, rfl, rfl, rfl, rfl, rfl, rfl⟩

/-- C8.  The request ids issued by one client instance (the shared atomic
counter starts at 0 and every allocation, from any clone or retry
attempt, is a fetch-add on it) are pairwise distinct and monotonically
increasing; within the 64-bit lifetime of the counter no id is reused. -/
theorem claim_C8 (i j : Nat) (hij : i < j) (hj : j < USIZE_MOD) :
    idIssued i < idIssued j ∧ idIssued i ≠ idIssued j := by
  have hi : idIssued i = i % USIZE_MOD := by
    unfold idIssued next_id
    rw [counterAfter_eq]
  have hjj : idIssued j = j % USIZE_MOD := by
    unfold idIssued next_id
    rw [counterAfter_eq]
  rw [hi, hjj, Nat.mod_eq_of_lt (lt_trans hij hj), Nat.mod_eq_of_lt hj]
  exact ⟨hij, Nat.ne_of_lt hij⟩

/-- C8, witness: the first two ids issued are 0 then 1. -/
theorem claim_C8_witness : idIssued 0 < idIssued 1 ∧ idIssued 0 ≠ idIssued 1 :=
  claim_C8 0 1 (by decide) (by norm_num [USIZE_MOD])

/-- C9, counterexample.  The claim asserts that an absent or empty PSBT
field yields "not yet present" (`None`).  The empty string is a present
field: it base64-decodes to the empty byte stream, which has no PSBT
magic, so the decoder returns a parse error, not `None`. -/
theorem claim_C9_counterexample :
    deserialize_option_psbt (some "") =
      .error "failed to deserialize PSBT: invalid magic" := rfl

/-- C9, amended.  For the optional PSBT field decoder: when the field is
absent (`null` or missing) it yields `None` rather than an error; when
the field is present — including the empty string — it parses the base64
PSBT and returns either the parsed value or an explicit parse error. -/
theorem claim_C9 :
    deserialize_option_psbt none = .ok none ∧
    (∀ s p, psbtFromStr s = .ok p →
      deserialize_option_psbt (some s) = .ok (some p)) ∧
    (∀ s e, psbtFromStr s = .error e →
      deserialize_option_psbt (some s) =
        .error ("failed to deserialize PSBT: " ++ e)) := by
  refine ⟨rfl, ?_, ?_⟩
  · intro s p h
    simp only [deserialize_option_psbt]
    rw [h]
  · intro s e h
    simp only [deserialize_option_psbt]
    rw [h]

/-- C9, witness: the absent field, a present well-formed PSBT (the base64
of the bare magic), and a present malformed string. -/
theorem claim_C9_witness :
    deserialize_option_psbt none = .ok none ∧
    deserialize_option_psbt (some "cHNidP8=") = .ok (some []) ∧
    deserialize_option_psbt (some "!") =
      .error ("failed to deserialize PSBT: " ++ "base64 decode failure") :=
  ⟨claim_C9.1, claim_C9.2.1 "cHNidP8=" [] rfl,
    claim_C9.2.2 "!" "base64 decode failure" rfl⟩

end BitcoindClient
